import Mathlib

set_option maxRecDepth 16384

/-!
Verification development for the internal-linking-automation pipeline.

The Python sources under `phases/` are shallowly embedded here:
dataframes become lists of records, Python strings become `String`
(whose `data : List Char` we manipulate directly), floats become `ℚ`,
and the lazily loaded sentence-transformer model becomes an explicit
`encode`/`cos` parameter pair, since the pipeline only ever uses it as a
deterministic text-to-vector function plus a similarity on vectors.
-/

namespace ILA

/-! ### Python string primitives, modelled on `List Char` -/

/-- Whitespace characters recognised by Python `str.strip()` and by the
regex class `\s` (the ASCII ones; exotic unicode spaces do not occur in
this code base). -/
def isPyWs (c : Char) : Bool :=
  c = ' ' || c = '\t' || c = '\n' || c = '\r' || c = '\x0b' || c = '\x0c'

/-- Python `str.lower` on a single character, for the alphabet this
repository actually uses (ASCII plus the German letters appearing in the
rule table). -/
def lowerChar (c : Char) : Char :=
  if 'A' ≤ c ∧ c ≤ 'Z' then Char.ofNat (c.toNat + 32)
  else if c = 'Ä' then 'ä'
  else if c = 'Ö' then 'ö'
  else if c = 'Ü' then 'ü'
  else c

/-- Python `str.upper` on a single character (same alphabet as `lowerChar`). -/
def upperChar (c : Char) : Char :=
  if 'a' ≤ c ∧ c ≤ 'z' then Char.ofNat (c.toNat - 32)
  else if c = 'ä' then 'Ä'
  else if c = 'ö' then 'Ö'
  else if c = 'ü' then 'Ü'
  else c

/-- Python `str.lower`. -/
def pyLower (s : String) : String := ⟨s.data.map lowerChar⟩

/-- Python `str.upper`. -/
def pyUpper (s : String) : String := ⟨s.data.map upperChar⟩

/-- Drop leading and trailing whitespace from a character list. -/
def trimWs (l : List Char) : List Char :=
  ((l.dropWhile isPyWs).reverse.dropWhile isPyWs).reverse

/-- Python `str.strip()` with no argument. -/
def pyStrip (s : String) : String := ⟨trimWs s.data⟩

/-- Drop every trailing `'/'` from a character list; this is Python
`str.rstrip("/")`, which removes ALL trailing occurrences. -/
def rstripSlash (l : List Char) : List Char :=
  (l.reverse.dropWhile (fun c => c = '/')).reverse

/-- Python `str.rstrip("/")`. -/
def pyRstripSlash (s : String) : String := ⟨rstripSlash s.data⟩

/-- Python `str.strip("/")`: drop leading and trailing slashes. -/
def stripSlashBoth (l : List Char) : List Char :=
  rstripSlash (l.dropWhile (fun c => c = '/'))

/-- Number of occurrences of a character, Python `str.count(c)` for a
single-character needle. -/
def countChar (c : Char) (l : List Char) : Nat :=
  (l.filter (fun x => x = c)).length

/-- Does `needle` occur at the very beginning of `hay`?  Python
`str.startswith`. -/
def subAt : List Char → List Char → Bool
  | [], _ => true
  | _ :: _, [] => false
  | a :: as, b :: bs => a = b && subAt as bs

/-- Does `needle` occur anywhere inside `hay`?  Python `needle in hay`
substring containment. -/
def hasSub (needle : List Char) : List Char → Bool
  | [] => subAt needle []
  | c :: t => subAt needle (c :: t) || hasSub needle t

/-- Maximal runs of characters satisfying `p`, in order; used for Python
`str.split()` (with `p := not whitespace`) and `re.findall` over a
character-class-run pattern. -/
def runsBy (p : Char → Bool) : List Char → List Char → List (List Char)
  | acc, [] => if acc = [] then [] else [acc.reverse]
  | acc, c :: rest =>
    if p c then runsBy p (c :: acc) rest
    else if acc = [] then runsBy p [] rest
    else acc.reverse :: runsBy p [] rest

/-- Number of whitespace-separated words, Python `len(s.split())`. -/
def countWords (l : List Char) : Nat :=
  (runsBy (fun c => !isPyWs c) [] l).length

/-! ### Phase 3: the Audit Engine (`phases/phase_3_audit.py`) -/

namespace Phase3

/-- The curated low-information anchor set `GENERIC_ANCHORS`. -/
def GENERIC_ANCHORS : List String :=
  ["click here", "read more", "learn more", "more", "here"]

/-- `is_generic_anchor`: strip, lower-case, and test membership in
`GENERIC_ANCHORS`.  The non-string branch of the Python function cannot
arise in the typed model. -/
def is_generic_anchor (anchor : String) : Bool :=
  GENERIC_ANCHORS.contains (pyLower (pyStrip anchor))

/-- One row of `page_df` as consumed by `audit_internal_links`; the url,
tier and score columns (the configuration-error check for missing
columns is a precondition outside the typed model). -/
structure Page where
  url : String
  priority_tier : String
  priority_score : Int
deriving DecidableEq, Repr

/-- One link record of `raw_links_list`. -/
structure Link where
  source : String
  dest : String
  anchor : String
deriving DecidableEq, Repr

/-- One output row of `audit_internal_links`: the input columns enriched
with the audit metrics. -/
structure AuditedPage where
  url : String
  priority_tier : String
  priority_score : Int
  is_orphan : Bool
  receiving_links : Nat
  link_equity_score : Int
  has_generic_anchors : Bool
  gap_status : String
deriving DecidableEq, Repr

/-- The row-wise `gap_status` cascade from `audit_internal_links`
(lines 115-124 of `phase_3_audit.py`). -/
def gap_status (is_orphan : Bool) (tier : String) (receiving_links : Nat)
    (has_generic_anchors : Bool) : String :=
  if is_orphan then "CRITICAL: Orphan Page"
  else if (tier = "A" ∨ tier = "B") ∧ receiving_links = 0 then "High: Under-Linked"
  else if (tier = "A" ∨ tier = "B") ∧ has_generic_anchors then "Medium: Poor Anchors"
  else "Healthy"

/-- The `source_scores` dict built with `set_index(url)[score].to_dict()`:
on duplicate urls the last row wins; `source_scores.get(src, 0)` defaults
to `0`. -/
def lookupScore (pages : List Page) (url : String) : Int :=
  match pages.reverse.find? (fun p => p.url = url) with
  | some p => p.priority_score
  | none => 0

/-- The per-row enrichment of `audit_internal_links` in the branch where
the link list is non-empty: orphan flag, incoming-link count (the
`groupby("dest").size()` merge with `fillna(0)`), equity score
(`equity_for_url`), generic-anchor flag, and the `gap_status` cascade. -/
def auditOne (pages : List Page) (crawled_urls : List String) (links : List Link)
    (p : Page) : AuditedPage :=
  let is_orph := !(crawled_urls.contains p.url)
  let incoming := links.filter (fun l => l.dest = p.url)
  let generic := links.any (fun l => l.dest = p.url && is_generic_anchor l.anchor)
  { url := p.url
    priority_tier := p.priority_tier
    priority_score := p.priority_score
    is_orphan := is_orph
    receiving_links := incoming.length
    link_equity_score := (incoming.map (fun l => lookupScore pages l.source)).sum
    has_generic_anchors := generic
    gap_status := gap_status is_orph p.priority_tier incoming.length generic }

/-- `audit_internal_links(page_df, crawled_urls, raw_links_list)`.  When
`links_df.empty` the function writes the zero metrics and the sentinel
gap status and returns early; otherwise every row is enriched by the
full computation. -/
def audit_internal_links (page_df : List Page) (crawled_urls : List String)
    (raw_links_list : List Link) : List AuditedPage :=
  if raw_links_list = [] then
    page_df.map (fun p =>
      { url := p.url
        priority_tier := p.priority_tier
        priority_score := p.priority_score
        is_orphan := !(crawled_urls.contains p.url)
        receiving_links := 0
        link_equity_score := 0
        has_generic_anchors := false
        gap_status := "No internal links found" })
  else
    page_df.map (auditOne page_df crawled_urls raw_links_list)

end Phase3

/-! ### The `urllib.parse` fragment used by phases 4 and 5

Only `urlparse(u).path` and `_replace(...).geturl()` are used by the
sources, so we model `urlsplit`/`urlunsplit` on character lists.  The
`;params` splitting of `urlparse` (relevant only to exotic URLs that do
not occur here) and IPv6 bracket validation are not modelled. -/

/-- Characters allowed in a URL scheme (`scheme_chars` of `urllib.parse`). -/
def isSchemeChar (c : Char) : Bool :=
  c.isAlpha || c.isDigit || c = '+' || c = '-' || c = '.'

/-- Split a list at the first occurrence of `c`; `none` when absent. -/
def splitFirst (c : Char) : List Char → Option (List Char × List Char)
  | [] => none
  | x :: t =>
    if x = c then some ([], t)
    else (splitFirst c t).map (fun p => (x :: p.1, p.2))

/-- The five components of `urllib.parse.urlsplit`. -/
structure UrlParts where
  scheme : List Char
  netloc : List Char
  path : List Char
  query : List Char
  fragment : List Char
deriving DecidableEq, Repr

/-- `urllib.parse.urlsplit`: scheme (letters before a `':'` all being
scheme characters), then `//netloc` up to the first `/?#`, then the
fragment after the first `'#'`, then the query after the first `'?'`;
what remains is the path. -/
def urlsplitL (url : List Char) : UrlParts :=
  let sp :=
    match splitFirst ':' url with
    | some (pre, post) =>
      if pre ≠ [] ∧ pre.all isSchemeChar then (pre.map lowerChar, post) else ([], url)
    | none => ([], url)
  let rest := sp.2
  let np :=
    if subAt ['/', '/'] rest then
      let body := rest.drop 2
      (body.takeWhile (fun c => !(c = '/' || c = '?' || c = '#')),
       body.dropWhile (fun c => !(c = '/' || c = '?' || c = '#')))
    else ([], rest)
  let fp :=
    match splitFirst '#' np.2 with
    | some (a, b) => (a, b)
    | none => (np.2, [])
  let qp :=
    match splitFirst '?' fp.1 with
    | some (a, b) => (a, b)
    | none => (fp.1, [])
  { scheme := sp.1, netloc := np.1, path := qp.1, query := qp.2, fragment := fp.2 }

/-- `urllib.parse.urlunsplit`, i.e. `geturl()` on a parse result:
reattach `//netloc` (prefixing the path with `'/'` when needed), the
scheme, the query and the fragment. -/
def geturlL (p : UrlParts) : List Char :=
  let u1 := p.path
  let u2 :=
    if p.netloc ≠ [] ∨ subAt ['/', '/'] u1 then
      ['/', '/'] ++ p.netloc ++ (if u1 ≠ [] ∧ ¬ (subAt ['/'] u1) then '/' :: u1 else u1)
    else u1
  let u3 := if p.scheme ≠ [] then p.scheme ++ ':' :: u2 else u2
  let u4 := if p.query ≠ [] then u3 ++ '?' :: p.query else u3
  if p.fragment ≠ [] then u4 ++ '#' :: p.fragment else u4

/-! ### Phase 4: the Opportunity Matcher (`phases/phase_4_opportunities.py`)

The sentence-transformer model is abstracted into an `encode` function
into an arbitrary vector type `V` and a `cos` similarity on `V`; the
two embedding caches of the source are semantically transparent because
`model.encode` is deterministic, so they are not modelled. -/

namespace Phase4

def MIN_SENTENCE_WORDS : Nat := 6

def PAGE_SIMILARITY_FLOOR : ℚ := mkRat 1 2

def SENTENCE_SIMILARITY_FLOOR : ℚ := mkRat 3 5

/-- `normalize_url`: coerce to string (vacuous in the typed model), then
`u.strip().rstrip("/")` — note `rstrip` removes EVERY trailing slash. -/
def normalize_url (u : String) : String := ⟨rstripSlash (trimWs u.data)⟩

/-- The pieces produced by `re.split(r"(?<=[.!?])\s+", text)`: scanning
left to right, a whitespace character directly preceded by `.`, `!` or
`?` ends the current piece; the remaining whitespace of the run is
carried into the next piece, which is immaterial because the caller only
word-counts and strips the pieces. -/
def splitPiecesAux (cur : List Char) (prev : Option Char) : List Char → List (List Char)
  | [] => [cur.reverse]
  | c :: rest =>
    if isPyWs c ∧ (prev = some '.' ∨ prev = some '!' ∨ prev = some '?') then
      cur.reverse :: splitPiecesAux [] (some c) rest
    else splitPiecesAux (c :: cur) (some c) rest

/-- `split_into_sentences`: split on terminal punctuation boundaries,
keep the pieces with at least `MIN_SENTENCE_WORDS` words, and strip
them.  The non-string/NaN branch cannot arise in the typed model. -/
def split_into_sentences (text : String) : List String :=
  ((splitPiecesAux [] none text.data).filter
      (fun s => MIN_SENTENCE_WORDS ≤ countWords s)).map (fun s => (⟨trimWs s⟩ : String))

/-- `detect_language_from_url`: lower-cased URL path, stripped of
slashes; bucket "de" or "en" when the first path segment (or the whole
path) is that code, "none" otherwise.  The `try/except` around
`urlparse` is dead in the model since `urlsplitL` is total. -/
def detect_language_from_url (url : String) : String :=
  let path := (urlsplitL url.data).path.map lowerChar
  let p := stripSlashBoth path
  if p = [] then "none"
  else
    let first := p.takeWhile (fun c => c ≠ '/')
    if first = "de".data ∨ p = "de".data then "de"
    else if first = "en".data ∨ p = "en".data then "en"
    else "none"

/-- `is_homepage`: `url.rstrip("/").count("/") <= 2`. -/
def is_homepage (url : String) : Bool :=
  decide (countChar '/' (rstripSlash url.data) ≤ 2)

/-- One row of the audited dataframe as read by phase 4 (the
`first_existing_column` resolution is fixed to the canonical column
names of this pipeline). -/
structure AuditedRow where
  url : String
  title : String
  h1 : String
  meta_description : String
  best_anchor_text : String
  priority_tier : String
deriving DecidableEq, Repr

/-- One row of the blog dataframe; `traffic = none` models an absent or
NaN traffic cell. -/
structure BlogPost where
  url : String
  content : String
  traffic : Option Int
deriving DecidableEq, Repr

/-- One emitted opportunity record. -/
structure Opportunity where
  source_url : String
  target_url : String
  suggested_anchor : String
  source_non_branded_traffic : Int
  confidence : ℚ
deriving DecidableEq, Repr

/-- `get_best_anchor`: the stripped `best_anchor_text`, unless empty or
the "N/A" sentinel. -/
def get_best_anchor (target_row : AuditedRow) : Option String :=
  let anchor := pyStrip target_row.best_anchor_text
  if anchor = "" ∨ pyUpper anchor = "N/A" then none else some anchor

/-- A character of the `re.findall(r"[a-z0-9]{4,}", ...)` token class. -/
def tokenChar (c : Char) : Bool :=
  ('a' ≤ c && c ≤ 'z') || ('0' ≤ c && c ≤ '9')

/-- `build_topic_tokens`: lower-case title/h1/meta/anchor joined by
blanks, its maximal `[a-z0-9]` runs of length ≥ 4, deduplicated.  The
Python `list(set(...))` order is unspecified; the tokens are only ever
consumed through an order-insensitive `any(...)`, so `dedup` is a
faithful model. -/
def build_topic_tokens (target_row : AuditedRow) : List String :=
  let text := (target_row.title ++ " " ++ target_row.h1 ++ " " ++
      target_row.meta_description ++ " " ++ target_row.best_anchor_text).data.map lowerChar
  (((runsBy tokenChar [] text).filter (fun r => 4 ≤ r.length)).map
      (fun r => (⟨r⟩ : String))).dedup

/-- Insertion into a Python dict modelled as an association list: an
existing key keeps its position and gets the new value, a new key goes
to the end (Python dicts preserve insertion order). -/
def dictInsert {α : Type} (m : List (String × α)) (k : String) (v : α) :
    List (String × α) :=
  if m.any (fun p => p.1 = k) then m.map (fun p => if p.1 = k then (k, v) else p)
  else m ++ [(k, v)]

/-- Build a dict from a key-value sequence, later bindings overwriting. -/
def buildDict {α : Type} (kvs : List (String × α)) : List (String × α) :=
  kvs.foldl (fun m kv => dictInsert m kv.1 kv.2) []

/-- Dict lookup. -/
def dictGet {α : Type} (m : List (String × α)) (k : String) : Option α :=
  (m.find? (fun p => p.1 = k)).map (fun p => p.2)

/-- `build_target_embeddings`: for each tier-A row, the intent text is
title/h1/meta joined and stripped (falling back to the url), and the
dict maps the normalized url to its embedding. -/
def build_target_embeddings {V : Type} (encode : String → V)
    (audited_df : List AuditedRow) : List (String × V) :=
  buildDict (audited_df.filterMap (fun row =>
    if pyUpper (pyStrip row.priority_tier) = "A" then
      let joined := pyStrip (row.title ++ " " ++ row.h1 ++ " " ++ row.meta_description)
      let intent_text := if joined = "" then row.url else joined
      some (normalize_url row.url, encode intent_text)
    else none))

/-- Python `round(q, 3)` on the rational model of the similarity score:
round `q * 1000` to the nearest integer and divide back by 1000,
computed on the numerator and denominator so that the kernel can
evaluate it; `round3_eq_round` below states the textbook form.  (The
banker's-rounding tie behaviour of binary floats is immaterial here and
not modelled.) -/
def round3 (q : ℚ) : ℚ := mkRat ((2000 * q.num + q.den).fdiv (2 * q.den)) 1000

/-- The per-target state threaded through the inner loop of
`find_internal_link_opportunities`. -/
structure TargetCtx (V : Type) where
  target_url : String
  target_vector : V
  best_anchor : String
  target_lang : String
  topic_tokens : List String

/-- `any(tok in sentence_lc for tok in topic_tokens)`. -/
def hasTopicToken (topic_tokens : List String) (sentence : String) : Bool :=
  let sentence_lc := sentence.data.map lowerChar
  topic_tokens.any (fun tok => hasSub tok.data sentence_lc)

/-- The sentence-gating condition of the inner loop: similarity at or
above `SENTENCE_SIMILARITY_FLOOR` and at least one topic token contained
in the lower-cased sentence. -/
def sentenceQualifies {V : Type} (encode : String → V) (cos : V → V → ℚ)
    (ctx : TargetCtx V) (s : String) : Bool :=
  decide (SENTENCE_SIMILARITY_FLOOR ≤ cos (encode s) ctx.target_vector) &&
    hasTopicToken ctx.topic_tokens s

/-- The body of the `for _, blog in blog_df.iterrows()` loop of
`find_internal_link_opportunities`, for one (target, blog) pair: the
hard filters in source order (empty source url; self-link or existing
link, the Python `or` split into two tests; language bucket; empty or
"nan" content; no qualifying-length sentence; page-similarity floor),
then the best qualifying sentence score and the emitted record. -/
def processBlog {V : Type} (encode : String → V) (cos : V → V → ℚ)
    (existing_links : List (String × String)) (ctx : TargetCtx V)
    (blog : BlogPost) : Option Opportunity :=
  let source_url := normalize_url blog.url
  if source_url = "" then none
  else if source_url = ctx.target_url then none
  else if (source_url, ctx.target_url) ∈ existing_links then none
  else if detect_language_from_url source_url ≠ ctx.target_lang then none
  else if blog.content = "" then none
  else if pyLower blog.content = "nan" then none
  else
    let source_traffic := blog.traffic.getD 0
    let sentences := split_into_sentences blog.content
    if sentences = [] then none
    else if cos (encode blog.content) ctx.target_vector < PAGE_SIMILARITY_FLOOR then none
    else
      let best_score := sentences.foldl (fun best s =>
        if sentenceQualifies encode cos ctx s then
          max best (cos (encode s) ctx.target_vector)
        else best) 0
      if best_score = 0 then none
      else some { source_url := source_url, target_url := ctx.target_url,
                  suggested_anchor := ctx.best_anchor,
                  source_non_branded_traffic := source_traffic,
                  confidence := round3 best_score }

/-- `find_internal_link_opportunities(blog_df, audited_df, existing_links)`:
iterate the target-embedding dict in insertion order; per target apply
the hard target rules (row lookup, best anchor present, not
homepage-like) and scan every blog row with `processBlog`. -/
def find_internal_link_opportunities {V : Type} (encode : String → V)
    (cos : V → V → ℚ) (blog_df : List BlogPost) (audited_df : List AuditedRow)
    (existing_links : List (String × String)) : List Opportunity :=
  let target_vectors := build_target_embeddings encode audited_df
  let audited_lookup := buildDict (audited_df.map (fun row => (normalize_url row.url, row)))
  target_vectors.flatMap (fun tv =>
    match dictGet audited_lookup tv.1 with
    | none => []
    | some target_row =>
      match get_best_anchor target_row with
      | none => []
      | some best_anchor =>
        if is_homepage tv.1 then []
        else
          blog_df.filterMap (processBlog encode cos existing_links
            { target_url := tv.1, target_vector := tv.2, best_anchor := best_anchor,
              target_lang := detect_language_from_url tv.1,
              topic_tokens := build_topic_tokens target_row }))

/-- The similarities of the sentences admitted by the sentence gate, in
source order — claim C6's "qualifying sentence similarities". -/
def qualifyingSims {V : Type} (encode : String → V) (cos : V → V → ℚ)
    (ctx : TargetCtx V) (sentences : List String) : List ℚ :=
  (sentences.filter (sentenceQualifies encode cos ctx)).map
    (fun s => cos (encode s) ctx.target_vector)

end Phase4

/-! ### A small regular-expression engine

Phase 5 tests anchors against a fixed table of Python regexes.  The
engine below implements exactly the constructs those patterns use:
literals, character classes, `\d`, `\s`, `.`, alternation (preferring
the left alternative), concatenation, greedy `*`/`+`/`?`/`{m,n}`
(expanded into `star`/`opt`), the word boundary `\b`, and the anchors
`^`/`$` (no MULTILINE, so `^` is position 0 and `$` is the end or a
final newline).  It is a continuation-passing backtracking matcher in
Python preference order, made total by a fuel parameter that is always
ample for the concrete strings it is evaluated on. -/

/-- Regular-expression syntax used by the phase-5 patterns. -/
inductive RE where
  | eps
  | chr (c : Char)
  | cls (cs : List Char)
  | digit
  | ws
  | anyc
  | bnd
  | bol
  | eol
  | cat (a b : RE)
  | alt (a b : RE)
  | star (a : RE)
deriving DecidableEq, Repr

/-- Greedy `+`. -/
def plusRE (a : RE) : RE := .cat a (.star a)

/-- Greedy `?` (prefer matching). -/
def optRE (a : RE) : RE := .alt a .eps

/-- A literal string. -/
def litRE (s : String) : RE := s.data.foldr (fun c acc => RE.cat (.chr c) acc) .eps

/-- Left-preferring alternation of a non-empty pattern list. -/
def altsRE : List RE → RE
  | [] => .eps
  | [a] => a
  | a :: rest => .alt a (altsRE rest)

/-- Concatenation of a pattern list. -/
def seqRE (l : List RE) : RE := l.foldr RE.cat .eps

/-- A word character for `\b`, i.e. Python `\w` restricted to the
alphabet occurring in this repository's anchors and patterns. -/
def isWordChar (c : Char) : Bool :=
  c.isAlphanum || c = '_' || c = 'ä' || c = 'ö' || c = 'ü' || c = 'ß'

/-- The backtracking matcher: try to match `re` at the current position
(`prev` is the character just before it, `s` the remaining input) and
call the continuation on the rest.  Alternatives are tried left first
and `star` is greedy with a progress guard, mirroring Python `re`
preference order. -/
def reM {α : Type} : Nat → RE → Option Char → List Char →
    (Option Char → List Char → Option α) → Option α
  | 0, _, _, _, _ => none
  | fuel + 1, re, prev, s, k =>
    match re with
    | .eps => k prev s
    | .chr c =>
      match s with
      | [] => none
      | x :: rest => if x = c then k (some x) rest else none
    | .cls cs =>
      match s with
      | [] => none
      | x :: rest => if x ∈ cs then k (some x) rest else none
    | .digit =>
      match s with
      | [] => none
      | x :: rest => if x.isDigit then k (some x) rest else none
    | .ws =>
      match s with
      | [] => none
      | x :: rest => if isPyWs x then k (some x) rest else none
    | .anyc =>
      match s with
      | [] => none
      | x :: rest => if x = '\n' then none else k (some x) rest
    | .bnd =>
      let pw := match prev with | some c => isWordChar c | none => false
      let nw := match s with | x :: _ => isWordChar x | [] => false
      if pw != nw then k prev s else none
    | .bol =>
      match prev with
      | none => k prev s
      | some _ => none
    | .eol =>
      match s with
      | [] => k prev s
      | ['\n'] => k prev s
      | _ => none
    | .cat a b => reM fuel a prev s (fun p2 s2 => reM fuel b p2 s2 k)
    | .alt a b =>
      match reM fuel a prev s k with
      | some r => some r
      | none => reM fuel b prev s k
    | .star a =>
      match reM fuel a prev s (fun p2 s2 =>
          if s2.length < s.length then reM fuel (RE.star a) p2 s2 k else none) with
      | some r => some r
      | none => k prev s

/-- Ample fuel for matching against a given input. -/
def reFuel (s : List Char) : Nat := 1000 * (s.length + 10)

/-- Try to match at every position left to right (`re.search`). -/
def reSearchAux (fuel : Nat) (re : RE) : Option Char → List Char → Bool
  | prev, [] => (reM fuel re prev [] (fun _ _ => some ())).isSome
  | prev, c :: rest =>
    (reM fuel re prev (c :: rest) (fun _ _ => some ())).isSome
      || reSearchAux fuel re (some c) rest

/-- Python `re.search(pattern, s)` as a Boolean. -/
def re_search (re : RE) (s : String) : Bool :=
  reSearchAux (reFuel s.data) re none s.data

/-- Python `re.match(pattern, s)` as a Boolean: anchored at position 0. -/
def re_match (re : RE) (s : String) : Bool :=
  (reM (reFuel s.data) re none s.data (fun _ _ => some ())).isSome

/-- Python `re.sub(pattern, "", s)` for a `^`-anchored pattern (which,
without MULTILINE, can only match at position 0, so at most one
replacement happens): drop the matched prefix if any. -/
def re_sub_first (re : RE) (s : String) : String :=
  match reM (reFuel s.data) re none s.data (fun _ rest => some rest) with
  | some rest => ⟨rest⟩
  | none => s

/-! ### Phase 5: the Commercial Anchor Rule Engine (`phases/phase_5_reporting.py`)

Only the core rule engine (`build_anchor_optimization_report` and its
helpers) is embedded; the sheet-assembly functions are the excluded
reporting collaborator. -/

namespace Phase5

/-- Whitespace-run collapsing, i.e. `re.sub(r"\s+", " ", s)`: a single
blank is emitted at the start of each whitespace run (`prevWs` remembers
being inside a run). -/
def collapseWsAux (prevWs : Bool) : List Char → List Char
  | [] => []
  | c :: rest =>
    if isPyWs c then
      if prevWs then collapseWsAux true rest
      else ' ' :: collapseWsAux true rest
    else c :: collapseWsAux false rest

/-- Whitespace-run collapsing, i.e. `re.sub(r"\s+", " ", s)`. -/
def collapseWs (l : List Char) : List Char := collapseWsAux false l

/-- `norm`: coerce (vacuous here), strip, lower-case, collapse
whitespace runs to single blanks. -/
def norm (s : String) : String :=
  ⟨collapseWs ((trimWs s.data).map lowerChar)⟩

/-- `\bwordpress\s+hosting\b`, shared by several rules. -/
def wpHostingRE : RE := seqRE [.bnd, litRE "wordpress", plusRE .ws, litRE "hosting", .bnd]

/-- `.*` (which never crosses a newline in Python without DOTALL). -/
def dotStarRE : RE := .star .anyc

/-- One entry of `COMMERCIAL_ANCHOR_RULES`: keyword label, compiled
pattern, canonical commercial target. -/
structure CommercialRule where
  kw : String
  pattern : RE
  target_url : String
deriving DecidableEq, Repr

/-- `COMMERCIAL_ANCHOR_RULES` in source order (most specific first,
generic category rules next, brand-only last); each `pattern` field is
the translation of the Python regex written in the comment-free source
list. -/
def COMMERCIAL_ANCHOR_RULES : List CommercialRule := [
  { kw := "woocommerce hosting",
    pattern := seqRE [.bnd, litRE "woocommerce", plusRE .ws, litRE "hosting", .bnd],
    target_url := "https://raidboxes.io/solutions/woocommerce-hosting/" },
  { kw := "green wordpress hosting",
    pattern := seqRE [.bnd,
      altsRE [litRE "green", litRE "grünes", litRE "klimafreundliches", litRE "nachhaltiges"],
      plusRE .ws, litRE "wordpress", plusRE .ws, litRE "hosting", .bnd],
    target_url := "https://raidboxes.io/platform/green-wordpress-hosting/" },
  { kw := "high traffic wordpress hosting",
    pattern := .alt
      (seqRE [.bnd,
        altsRE [seqRE [litRE "high", optRE (.alt (.chr '-') .ws), litRE "traffic"],
                litRE "enterprise"],
        .bnd, dotStarRE, wpHostingRE])
      (seqRE [wpHostingRE, dotStarRE, .bnd,
        altsRE [seqRE [litRE "high", optRE (.alt (.chr '-') .ws), litRE "traffic"],
                litRE "enterprise"],
        .bnd]),
    target_url := "https://raidboxes.io/solutions/high-traffic-wordpress-hosting/" },
  { kw := "managed cloud hosting",
    pattern := seqRE [.bnd, litRE "managed", plusRE .ws, litRE "cloud", plusRE .ws,
      litRE "hosting", .bnd],
    target_url := "https://raidboxes.io/solutions/wordpress-managed-cloud-hosting/" },
  { kw := "wordpress support",
    pattern := .alt
      (seqRE [.bnd, litRE "wordpress", plusRE .ws, litRE "support", .bnd])
      (seqRE [.bnd, litRE "fragen", plusRE .ws, litRE "im", plusRE .ws,
        litRE "wordpress", plusRE .ws, litRE "support", .bnd]),
    target_url := "https://raidboxes.io/platform/wordpress-support/" },
  { kw := "wordpress security",
    pattern := .alt
      (seqRE [.bnd, litRE "wordpress", plusRE .ws,
        altsRE [litRE "security", litRE "sicherheit"], .bnd])
      (seqRE [.bnd, litRE "sicher", altsRE [litRE "es", litRE "heit"], .bnd,
        dotStarRE, .bnd, litRE "wordpress", .bnd]),
    target_url := "https://raidboxes.io/platform/wordpress-security/" },
  { kw := "wordpress performance",
    pattern := .alt
      (seqRE [.bnd, litRE "wordpress", plusRE .ws, litRE "performance", .bnd])
      (seqRE [.bnd, litRE "schnell", altsRE [litRE "es", litRE "e"], plusRE .ws,
        litRE "wordpress", plusRE .ws, litRE "hosting", .bnd]),
    target_url := "https://raidboxes.io/platform/wordpress-performance/" },
  { kw := "wordpress management",
    pattern := .alt
      (seqRE [.bnd, litRE "wordpress", plusRE .ws, litRE "management", .bnd])
      (seqRE [.bnd, litRE "website", optRE (.chr 's'), plusRE .ws,
        litRE "verwalten", .bnd]),
    target_url := "https://raidboxes.io/platform/wordpress-management/" },
  { kw := "wordpress migration",
    pattern := altsRE [
      seqRE [.bnd, litRE "wordpress", plusRE .ws, litRE "migration", .bnd],
      seqRE [.bnd, litRE "wordpress", plusRE .ws, litRE "umzug", .bnd],
      seqRE [.bnd, litRE "umzugsservice", .bnd]],
    target_url := "https://raidboxes.io/free-wordpress-migration/" },
  { kw := "wordpress hosting preise",
    pattern := .alt
      (seqRE [wpHostingRE, dotStarRE, .bnd,
        altsRE [litRE "preise", litRE "pricing", litRE "tarife", litRE "kosten"], .bnd])
      (seqRE [.bnd,
        altsRE [litRE "preise", litRE "pricing", litRE "tarife", litRE "kosten"], .bnd,
        dotStarRE, wpHostingRE]),
    target_url := "https://raidboxes.io/wordpress-hosting-pricing/" },
  { kw := "wordpress speed test",
    pattern := .alt
      (seqRE [.bnd, litRE "wordpress", plusRE .ws, litRE "speed", plusRE .ws,
        litRE "test", .bnd])
      (seqRE [.bnd, litRE "wie", plusRE .ws, litRE "schnell", plusRE .ws,
        litRE "lädt", .bnd, dotStarRE, .bnd, litRE "wordpress", .bnd]),
    target_url := "https://raidboxes.io/wordpress-speed-test/" },
  { kw := "performance test",
    pattern := altsRE [
      seqRE [.bnd, litRE "performance", .star (.alt (.chr '-') .ws), litRE "test", .bnd],
      seqRE [.bnd, litRE "langsame", plusRE .ws, litRE "website", .bnd],
      seqRE [.bnd, litRE "slow", plusRE .ws, litRE "website", .bnd]],
    target_url := "https://raidboxes.io/performance-test/" },
  { kw := "wordpress hosting für agenturen",
    pattern := .alt
      (seqRE [wpHostingRE, dotStarRE, .bnd,
        altsRE [litRE "agenturen", litRE "freelancer"], .bnd])
      (seqRE [.bnd, altsRE [litRE "agenturen", litRE "freelancer"], .bnd,
        dotStarRE, wpHostingRE]),
    target_url := "https://raidboxes.io/customers/website-creators/" },
  { kw := "wordpress hosting für unternehmen",
    pattern := .alt
      (seqRE [wpHostingRE, dotStarRE, .bnd,
        altsRE [litRE "unternehmen", litRE "shops"], .bnd])
      (seqRE [.bnd, altsRE [litRE "unternehmen", litRE "shops"], .bnd,
        dotStarRE, wpHostingRE]),
    target_url := "https://raidboxes.io/customers/website-owners/" },
  { kw := "domains",
    pattern := .alt
      (seqRE [.bnd, litRE "domain", optRE (.chr 's'), .bnd])
      (seqRE [.bnd, litRE "domain", plusRE .ws, litRE "kaufen", .bnd]),
    target_url := "https://raidboxes.io/domains/" },
  { kw := "email hosting",
    pattern := seqRE [.bnd,
      altsRE [seqRE [.chr 'e', optRE (.chr '-'), litRE "mail"], litRE "email"],
      plusRE .ws, litRE "hosting", .bnd],
    target_url := "https://raidboxes.io/email-hosting/" },
  { kw := "affiliate programm",
    pattern := seqRE [.bnd, litRE "affiliate", plusRE .ws,
      altsRE [litRE "programm", litRE "program"], .bnd],
    target_url := "https://raidboxes.io/affiliate/" },
  { kw := "ionos alternative",
    pattern := seqRE [.bnd, litRE "ionos", plusRE .ws, litRE "alternative", .bnd],
    target_url := "https://raidboxes.io/ionos-alternative/" },
  { kw := "strato alternative",
    pattern := seqRE [.bnd, litRE "strato", plusRE .ws, litRE "alternative", .bnd],
    target_url := "https://raidboxes.io/strato-alternative/" },
  { kw := "managed wordpress hosting",
    pattern := seqRE [.bnd, litRE "managed", plusRE .ws, litRE "wordpress", plusRE .ws,
      litRE "hosting", .bnd],
    target_url := "https://raidboxes.io/solutions/managed-wordpress-hosting/" },
  { kw := "wordpress hosting",
    pattern := seqRE [.bnd, litRE "wordpress", plusRE .ws, litRE "hosting", .bnd],
    target_url := "https://raidboxes.io/solutions/managed-wordpress-hosting/" },
  { kw := "brand",
    pattern := seqRE [.bol, .star .ws, litRE "raidboxes",
      optRE (altsRE [.chr '®', .chr '™']), optRE (litRE ".io"), .star .ws, .eol],
    target_url := "https://raidboxes.io/" }
]

/-- `_DATE_ONLY_PATTERNS`: one-or-two digits, a separator out of dot,
slash or dash, one-or-two digits, a separator, two-to-four digits, all
anchored (`^...$`); ISO `\d{4}-\d{2}-\d{2}`; and a bare year `\d{4}`. -/
def _DATE_ONLY_PATTERNS : List RE := [
  seqRE [.bol, .digit, optRE .digit, .cls ['.', '/', '-'],
    .digit, optRE .digit, .cls ['.', '/', '-'],
    .digit, .digit, optRE .digit, optRE .digit, .eol],
  seqRE [.bol, .digit, .digit, .digit, .digit, .chr '-', .digit, .digit,
    .chr '-', .digit, .digit, .eol],
  seqRE [.bol, .digit, .digit, .digit, .digit, .eol]]

/-- `is_date_only_anchor`: the stripped anchor fully matches one of the
date shapes.  The non-string branch cannot arise in the typed model. -/
def is_date_only_anchor (anchor : String) : Bool :=
  let a := pyStrip anchor
  if a = "" then false
  else _DATE_ONLY_PATTERNS.any (fun p => re_match p a)

/-- The listicle-start pattern
`^\s*\d{1,3}\s+(best|beste|top|tipps|tips|gründe|reasons|maßnahmen|measures|steps|schritte)\b`. -/
def listicleStartRE : RE :=
  seqRE [.bol, .star .ws, .digit, optRE .digit, optRE .digit, plusRE .ws,
    altsRE [litRE "best", litRE "beste", litRE "top", litRE "tipps", litRE "tips",
      litRE "gründe", litRE "reasons", litRE "maßnahmen", litRE "measures",
      litRE "steps", litRE "schritte"],
    .bnd]

/-- The headline-keyword pattern
`\b(vergleich|test|guide|anleitung|tutorial|checkliste|trends|liste|ranking)\b`. -/
def headlineKwRE : RE :=
  seqRE [.bnd,
    altsRE [litRE "vergleich", litRE "test", litRE "guide", litRE "anleitung",
      litRE "tutorial", litRE "checkliste", litRE "trends", litRE "liste",
      litRE "ranking"],
    .bnd]

/-- `is_article_title_like_anchor`: numeric-prefixed listicle phrasing,
or a headline keyword in an anchor of length ≥ 35, or any anchor of
length ≥ 90. -/
def is_article_title_like_anchor (anchor : String) : Bool :=
  let a := pyStrip anchor
  if a = "" then false
  else
    let a_lc := pyLower a
    if re_match listicleStartRE a_lc then true
    else if re_search headlineKwRE a_lc && decide (35 ≤ a.data.length) then true
    else decide (90 ≤ a.data.length)

/-- `is_blog_url`: the lower-cased URL path is `/blog`, under `/blog/`,
`/en/blog`, or under `/en/blog/`. -/
def is_blog_url (url : String) : Bool :=
  if url = "" then false
  else
    let path := (urlsplitL url.data).path.map lowerChar
    path = "/blog".data || subAt "/blog/".data path
      || path = "/en/blog".data || subAt "/en/blog/".data path

/-- `source_is_en`: the lower-cased URL path starts with `/en/` or is
exactly `/en`. -/
def source_is_en (url : String) : Bool :=
  if url = "" then false
  else
    let path := (urlsplitL url.data).path.map lowerChar
    subAt "/en/".data path || path = "/en".data

/-- `align_destination_language(target_url, source_url)`: force an
`/en` path prefix on the target when the source is in the "en" bucket,
strip it otherwise, drop query and fragment, rebuild the URL and strip
trailing slashes. -/
def align_destination_language (target_url : String) (source_url : String) : String :=
  if target_url = "" then target_url
  else
    let t := urlsplitL target_url.data
    let s_is_en := source_is_en source_url
    let path := t.path
    let pathL := path.map lowerChar
    let path2 :=
      if s_is_en then
        if ¬ (subAt "/en/".data pathL) ∧ pathL ≠ "/en".data then
          "/en".data ++ (if subAt "/".data path then path else '/' :: path)
        else path
      else
        if subAt "/en/".data pathL then
          let p2 := path.drop 3
          if subAt "/".data p2 then p2 else '/' :: p2
        else if pathL = "/en".data then "/".data
        else path
    ⟨rstripSlash (geturlL { t with path := path2, query := [], fragment := [] })⟩

/-- `normalize_url_no_query`: drop query and fragment, rebuild, strip
trailing slashes.  The non-string branch cannot arise in the typed
model. -/
def normalize_url_no_query (url : String) : String :=
  ⟨rstripSlash (geturlL { urlsplitL url.data with query := [], fragment := [] })⟩

/-- The `^(zum|zur|zu|to|for|über|about)\s+` stop-prefix pattern. -/
def cleanPrefixRE : RE :=
  seqRE [.bol,
    altsRE [litRE "zum", litRE "zur", litRE "zu", litRE "to", litRE "for",
      litRE "über", litRE "about"],
    plusRE .ws]

/-- `clean_anchor_for_matching`: normalize, then strip one leading
preposition word. -/
def clean_anchor_for_matching (anchor : String) : String :=
  re_sub_first cleanPrefixRE (norm anchor)

/-- `is_strong_match(anchor, keyword)`: exact match, prefix/suffix word
match, or keyword containment within an anchor of at most 6 words. -/
def is_strong_match (anchor : String) (keyword : String) : Bool :=
  let a := clean_anchor_for_matching anchor
  let k := norm keyword
  if a = "" || k = "" then false
  else if a = k then true
  else if subAt (k.data ++ [' ']) a.data then true
  else if subAt (' ' :: k.data).reverse a.data.reverse then true
  else hasSub k.data a.data && decide (countWords a.data ≤ 6)

/-- One row of the anchor-optimization report. -/
structure AnchorRow where
  page_to_edit : String
  destination_page : String
  current_anchor : String
  suggested_anchor : String
  suggested_destination : String
  rule_triggered : String
deriving DecidableEq, Repr

/-- The rule predicate of the inner loop: the regex matches the
normalized anchor (already lower-cased, so the IGNORECASE flag is
vacuous) and the strong-match heuristic confirms it. -/
def ruleMatches (anchor_lc : String) (anchor : String) (rule : CommercialRule) : Bool :=
  re_search rule.pattern anchor_lc && is_strong_match anchor rule.kw

/-- The body of the per-link loop of `build_anchor_optimization_report`:
skip empty, date-only and headline-like anchors and non-blog current
destinations; find the first matching rule (`break` on success, keep
scanning when only the regex matches); rewrite the rule target into the
source's language bucket; drop no-op suggestions. -/
def processLink (r : Phase3.Link) : Option AnchorRow :=
  let src := pyStrip r.source
  let dst := pyStrip r.dest
  let anchor := pyStrip r.anchor
  if anchor = "" then none
  else if is_date_only_anchor anchor then none
  else if is_article_title_like_anchor anchor then none
  else if is_blog_url dst = false then none
  else
    let anchor_lc := norm anchor
    match COMMERCIAL_ANCHOR_RULES.find? (ruleMatches anchor_lc anchor) with
    | none => none
    | some matched_rule =>
      let suggested := align_destination_language matched_rule.target_url src
      if normalize_url_no_query dst = normalize_url_no_query suggested then none
      else some { page_to_edit := src, destination_page := dst,
                  current_anchor := anchor, suggested_anchor := anchor,
                  suggested_destination := suggested,
                  rule_triggered := "commercial_mapping: " ++ matched_rule.kw }

/-- The `drop_duplicates` key: (page_to_edit, destination_page,
current_anchor, suggested_destination). -/
def rowKey (r : AnchorRow) : String × String × String × String :=
  (r.page_to_edit, r.destination_page, r.current_anchor, r.suggested_destination)

/-- `drop_duplicates(subset=...)` keeping the first occurrence of each
key. -/
def dedupRowsAux (seen : List (String × String × String × String)) :
    List AnchorRow → List AnchorRow
  | [] => []
  | r :: rest =>
    if rowKey r ∈ seen then dedupRowsAux seen rest
    else r :: dedupRowsAux (rowKey r :: seen) rest

/-- `build_anchor_optimization_report(raw_links_list, audited_df)`: the
per-link loop over the normalized link rows followed by
de-duplication.  The `audited_df` argument is accepted and ignored,
exactly as in the source; the empty-input and missing-column early
returns coincide with the empty output of the main path. -/
def build_anchor_optimization_report (raw_links_list : List Phase3.Link)
    (audited_df : List Phase3.AuditedPage) : List AnchorRow :=
  dedupRowsAux [] (raw_links_list.filterMap processLink)

end Phase5

/-! ### A concrete run of the matcher, used by the claim witnesses -/

namespace Ex

/-- A concrete tier-A audited row (witness input). -/
def tRow : Phase4.AuditedRow :=
  { url := "https://x.io/solutions/woo/", title := "Woo Hosting Guide", h1 := "",
    meta_description := "", best_anchor_text := "Woo Hosting", priority_tier := "A" }

/-- A concrete blog row with two qualifying-length sentences (witness input). -/
def bPost : Phase4.BlogPost :=
  { url := "https://x.io/posts/p1/",
    content := "Great woo hosting tips here today friend. Another filler sentence about things generally now.",
    traffic := some 5 }

/-- A concrete deterministic similarity table standing in for the
sentence-transformer cosine similarity (witness input). -/
def exCos (a b : String) : ℚ :=
  if b = "Woo Hosting Guide" then
    if a = bPost.content then mkRat 7 10
    else if a = "Great woo hosting tips here today friend." then mkRat 7 10
    else 0
  else 0

/-- A concrete existing-link set not containing the emitted pair
(witness input). -/
def exLinks : List (String × String) := [("https://x.io/posts/p1", "https://x.io/other")]

/-- The target context the matcher builds for `tRow` (witness input). -/
def ctx0 : Phase4.TargetCtx String :=
  { target_url := "https://x.io/solutions/woo", target_vector := "Woo Hosting Guide",
    best_anchor := "Woo Hosting", target_lang := "none",
    topic_tokens := ["guide", "hosting"] }

/-- The single opportunity the matcher emits on the witness inputs. -/
def o0 : Phase4.Opportunity :=
  { source_url := "https://x.io/posts/p1", target_url := "https://x.io/solutions/woo",
    suggested_anchor := "Woo Hosting", source_non_branded_traffic := 5,
    confidence := mkRat 7 10 }

end Ex

/-! ### Helper lemmas about folds, trailing slashes and the matcher -/

/-- A guarded max-fold is the plain max-fold of the filtered, mapped list. -/
theorem foldl_ite_max_eq {α : Type} (p : α → Bool) (f : α → ℚ) :
    ∀ (l : List α) (a : ℚ),
      l.foldl (fun best s => if p s then max best (f s) else best) a
        = ((l.filter p).map f).foldl max a
  | [], _ => rfl
  | x :: l, a => by
    by_cases hx : p x
    · simp only [List.foldl_cons, List.filter_cons, hx, if_pos, List.map_cons]
      exact foldl_ite_max_eq p f l (max a (f x))
    · simp only [List.foldl_cons, List.filter_cons, hx, List.map_cons, if_neg,
        Bool.false_eq_true, ite_false]
      exact foldl_ite_max_eq p f l a

/-- A max-fold result is the seed or an element of the list. -/
theorem foldl_max_eq_or_mem : ∀ (l : List ℚ) (a : ℚ),
    l.foldl max a = a ∨ l.foldl max a ∈ l
  | [], _ => Or.inl rfl
  | x :: l, a => by
    rw [List.foldl_cons]
    rcases foldl_max_eq_or_mem l (max a x) with h | h
    · rw [h]
      rcases max_choice a x with hm | hm
      · exact Or.inl hm
      · right
        rw [hm]
        exact List.mem_cons_self x l
    · exact Or.inr (List.mem_cons_of_mem x h)

/-- The seed is below the max-fold result. -/
theorem init_le_foldl_max : ∀ (l : List ℚ) (a : ℚ), a ≤ l.foldl max a
  | [], _ => le_refl _
  | x :: l, a => le_trans (le_max_left a x) (init_le_foldl_max l (max a x))

/-- Every list element is below the max-fold result. -/
theorem mem_le_foldl_max : ∀ (l : List ℚ) (a : ℚ), ∀ x ∈ l, x ≤ l.foldl max a
  | y :: l, a, x, hx => by
    rw [List.foldl_cons]
    rcases List.mem_cons.mp hx with rfl | hmem
    · exact le_trans (le_max_right a x) (init_le_foldl_max l (max a x))
    · exact mem_le_foldl_max l (max a y) x hmem

/-- Stripping trailing slashes removes a (possibly empty) run of slashes
and nothing else. -/
theorem rstripSlash_append_replicate (l : List Char) :
    ∃ k, rstripSlash l ++ List.replicate k '/' = l := by
  have ht : ∀ b ∈ l.reverse.takeWhile (fun c => c = '/'), b = '/' := fun b hb => by
    simpa using List.mem_takeWhile_imp hb
  refine ⟨(l.reverse.takeWhile (fun c => c = '/')).length, ?_⟩
  have hrep : List.replicate (l.reverse.takeWhile (fun c => c = '/')).length '/'
      = (l.reverse.takeWhile (fun c => c = '/')).reverse := by
    rw [← List.reverse_replicate]
    congr 1
    exact (List.eq_replicate_iff.mpr ⟨rfl, ht⟩).symm
  rw [hrep]
  unfold rstripSlash
  rw [← List.reverse_append, List.takeWhile_append_dropWhile, List.reverse_reverse]

/-- The result of stripping trailing slashes does not end in a slash. -/
theorem rstripSlash_getLast_ne (l : List Char) :
    (rstripSlash l).getLast? ≠ some '/' := by
  unfold rstripSlash
  rw [List.getLast?_reverse]
  intro hsome
  have h := List.head?_dropWhile_not (fun c => c = '/') l.reverse
  rw [hsome] at h
  simp at h

set_option maxHeartbeats 4000000 in
/-- Elimination for a successful `processBlog`: the emitted record's
fields and the hard filters it must have passed. -/
theorem processBlog_eq_some {V : Type} {encode : String → V} {cos : V → V → ℚ}
    {existing_links : List (String × String)} {ctx : Phase4.TargetCtx V}
    {blog : Phase4.BlogPost} {o : Phase4.Opportunity}
    (h : Phase4.processBlog encode cos existing_links ctx blog = some o) :
    o.source_url = Phase4.normalize_url blog.url ∧
    o.target_url = ctx.target_url ∧
    o.suggested_anchor = ctx.best_anchor ∧
    o.source_url ≠ ctx.target_url ∧
    (o.source_url, o.target_url) ∉ existing_links ∧
    Phase4.detect_language_from_url o.source_url = ctx.target_lang := by
  simp only [Phase4.processBlog] at h
  split at h
  · exact absurd h (by simp)
  split at h
  · exact absurd h (by simp)
  split at h
  · exact absurd h (by simp)
  split at h
  · exact absurd h (by simp)
  split at h
  · exact absurd h (by simp)
  split at h
  · exact absurd h (by simp)
  split at h
  · exact absurd h (by simp)
  split at h
  · exact absurd h (by simp)
  split at h
  · exact absurd h (by simp)
  next _ hne hdup hlang _ _ _ _ _ =>
    cases h
    exact ⟨rfl, rfl, rfl, hne, hdup, not_not.mp hlang⟩

/-- Elimination for membership in the matcher output: the opportunity
comes from some target context (whose language tag is the detected
bucket of its url and whose url is not homepage-like) and some blog row
accepted by `processBlog`. -/
theorem mem_find_elim {V : Type} {encode : String → V} {cos : V → V → ℚ}
    {blog_df : List Phase4.BlogPost} {audited_df : List Phase4.AuditedRow}
    {existing_links : List (String × String)} {o : Phase4.Opportunity}
    (h : o ∈ Phase4.find_internal_link_opportunities encode cos blog_df
        audited_df existing_links) :
    ∃ (ctx : Phase4.TargetCtx V) (blog : Phase4.BlogPost),
      ctx.target_lang = Phase4.detect_language_from_url ctx.target_url ∧
      Phase4.is_homepage ctx.target_url = false ∧
      Phase4.processBlog encode cos existing_links ctx blog = some o := by
  unfold Phase4.find_internal_link_opportunities at h
  simp only [List.mem_flatMap] at h
  obtain ⟨tv, _, hmem⟩ := h
  split at hmem
  · exact absurd hmem (List.not_mem_nil o)
  split at hmem
  · exact absurd hmem (List.not_mem_nil o)
  split at hmem
  · exact absurd hmem (List.not_mem_nil o)
  next target_row _ best_anchor _ hhome =>
    rw [List.mem_filterMap] at hmem
    obtain ⟨blog, _, hpb⟩ := hmem
    exact ⟨_, blog, rfl, by simpa using hhome, hpb⟩

/-- `subAt` is exactly Python `startswith`: a prefix decomposition. -/
theorem subAt_iff : ∀ (n l : List Char), subAt n l = true ↔ ∃ t, l = n ++ t
  | [], l => by simp [subAt]
  | a :: n2, [] => by simp [subAt]
  | a :: n2, b :: l2 => by
    simp only [subAt, Bool.and_eq_true, decide_eq_true_eq, List.cons_append]
    constructor
    · rintro ⟨rfl, h⟩
      obtain ⟨t, rfl⟩ := (subAt_iff n2 l2).mp h
      exact ⟨t, rfl⟩
    · rintro ⟨t, ht⟩
      injection ht with h1 h2
      exact ⟨h1.symm, (subAt_iff n2 l2).mpr ⟨t, h2⟩⟩

/-- `hasSub` is exactly Python substring containment: an infix
decomposition. -/
theorem hasSub_iff : ∀ (n l : List Char), hasSub n l = true ↔ ∃ x y, l = x ++ n ++ y
  | n, [] => by
    rw [hasSub, subAt_iff]
    constructor
    · rintro ⟨t, ht⟩
      rcases List.append_eq_nil.mp ht.symm with ⟨rfl, rfl⟩
      exact ⟨[], [], rfl⟩
    · rintro ⟨x, y, hxy⟩
      rcases List.append_eq_nil.mp hxy.symm with ⟨h1, rfl⟩
      rcases List.append_eq_nil.mp h1 with ⟨rfl, rfl⟩
      exact ⟨[], rfl⟩
  | n, c :: t => by
    rw [hasSub, Bool.or_eq_true, subAt_iff, hasSub_iff n t]
    constructor
    · rintro (⟨s, hs⟩ | ⟨x, y, hxy⟩)
      · exact ⟨[], s, by simpa using hs⟩
      · exact ⟨c :: x, y, by simp [hxy]⟩
    · rintro ⟨x, y, hxy⟩
      cases x with
      | nil => exact Or.inl ⟨y, by simpa using hxy⟩
      | cons c2 x2 =>
        rw [List.cons_append, List.cons_append] at hxy
        injection hxy with h1 h2
        exact Or.inr ⟨x2, y, h2⟩

/-- Stripping trailing slashes preserves any infix whose last character
is not a slash (the slashes removed all come after it). -/
theorem rstripSlash_decomp (x m y : List Char) (hlast : m.getLast? ≠ some '/') :
    ∃ x2 y2, rstripSlash (x ++ m ++ y) = x2 ++ m ++ y2 := by
  rcases List.eq_nil_or_concat m with rfl | ⟨m0, c, rfl⟩
  · exact ⟨rstripSlash (x ++ y), [], by simp⟩
  · rw [List.concat_eq_append] at hlast ⊢
    have hc : ¬ (c = '/') := by
      intro h
      rw [h] at hlast
      exact hlast (List.getLast?_concat m0)
    have hrev : (x ++ (m0 ++ [c]) ++ y).reverse
        = y.reverse ++ (c :: (m0.reverse ++ x.reverse)) := by
      simp
    unfold rstripSlash
    rw [hrev, List.dropWhile_append]
    by_cases hy : (y.reverse.dropWhile (fun ch => ch = '/')).isEmpty
    · rw [if_pos hy, List.dropWhile_cons, if_neg (by simpa using hc)]
      exact ⟨x, [], by simp⟩
    · rw [if_neg hy]
      exact ⟨x, (y.reverse.dropWhile (fun ch => ch = '/')).reverse, by simp⟩

/-- When query and fragment are empty, `geturl` output is the path with
some prefix (scheme/netloc material) in front. -/
theorem geturl_path_decomp (p : UrlParts) (hq : p.query = []) (hf : p.fragment = []) :
    ∃ pre, geturlL p = pre ++ p.path := by
  by_cases h1 : p.netloc ≠ [] ∨ subAt ['/', '/'] p.path = true
  · by_cases h2 : p.path ≠ [] ∧ ¬ (subAt ['/'] p.path = true)
    · by_cases h3 : p.scheme ≠ []
      · exact ⟨p.scheme ++ [':'] ++ ['/', '/'] ++ p.netloc ++ ['/'],
          by simp [geturlL, hq, hf, h1, h2, h3]⟩
      · exact ⟨['/', '/'] ++ p.netloc ++ ['/'],
          by simp [geturlL, hq, hf, h1, h2, h3]⟩
    · by_cases h3 : p.scheme ≠ []
      · exact ⟨p.scheme ++ [':'] ++ ['/', '/'] ++ p.netloc,
          by simp [geturlL, hq, hf, h1, h2, h3]; tauto⟩
      · exact ⟨['/', '/'] ++ p.netloc,
          by simp [geturlL, hq, hf, h1, h2, h3]; tauto⟩
  · by_cases h3 : p.scheme ≠ []
    · exact ⟨p.scheme ++ [':'], by simp [geturlL, hq, hf, h1, h3]⟩
    · exact ⟨[], by simp [geturlL, hq, hf, h1, h3]⟩

/-- For a blog URL, the lower-cased normalized-no-query form still
contains "/blog" — phase 5's no-op filter can therefore never equate it
with a commercial target. -/
theorem is_blog_url_hasSub (dst : String) (h : Phase5.is_blog_url dst = true) :
    ∃ x y, (Phase5.normalize_url_no_query dst).data.map lowerChar
      = x ++ "/blog".data ++ y := by
  simp only [Phase5.is_blog_url] at h
  split at h
  · exact absurd h (by simp)
  rw [Bool.or_eq_true, Bool.or_eq_true, Bool.or_eq_true] at h
  have hdecomp : ∃ px py, ((urlsplitL dst.data).path.map lowerChar)
      = px ++ "/blog".data ++ py := by
    rcases h with ((h1 | h2) | h3) | h4
    · exact ⟨[], [], by simpa using h1⟩
    · obtain ⟨t, ht⟩ := (subAt_iff _ _).mp h2
      exact ⟨[], '/' :: t, by rw [ht]; rfl⟩
    · exact ⟨"/en".data, [], by rw [show ((urlsplitL dst.data).path.map lowerChar)
        = "/en/blog".data from by simpa using h3]; rfl⟩
    · obtain ⟨t, ht⟩ := (subAt_iff _ _).mp h4
      exact ⟨"/en".data, '/' :: t, by rw [ht]; rfl⟩
  obtain ⟨px, py, hpath⟩ := hdecomp
  rw [List.append_assoc] at hpath
  obtain ⟨p1, p23, hsplit, hm1, hm23⟩ := List.map_eq_append_iff.mp hpath
  obtain ⟨p2, p3, hsplit2, hm2, hm3⟩ := List.map_eq_append_iff.mp hm23
  have hlast : p2.getLast? ≠ some '/' := by
    intro hl
    have hg := List.getLast?_map lowerChar p2
    rw [hm2, hl] at hg
    exact absurd hg (by decide)
  obtain ⟨pre, hpre⟩ := geturl_path_decomp
    { urlsplitL dst.data with query := [], fragment := [] } rfl rfl
  have hpath2 : ({ urlsplitL dst.data with query := [], fragment := [] } : UrlParts).path
      = (urlsplitL dst.data).path := rfl
  rw [hpath2] at hpre
  have hfull : Phase5.normalize_url_no_query dst
      = (⟨rstripSlash (pre ++ ((urlsplitL dst.data).path))⟩ : String) := by
    simp only [Phase5.normalize_url_no_query]
    rw [hpre]
  rw [hsplit, hsplit2] at hfull
  have hassoc : pre ++ (p1 ++ (p2 ++ p3)) = (pre ++ p1) ++ p2 ++ p3 := by
    simp [List.append_assoc]
  rw [hassoc] at hfull
  obtain ⟨x2, y2, hr⟩ := rstripSlash_decomp (pre ++ p1) p2 p3 hlast
  refine ⟨x2.map lowerChar, y2.map lowerChar, ?_⟩
  rw [hfull]
  show (rstripSlash ((pre ++ p1) ++ p2 ++ p3)).map lowerChar = _
  rw [hr]
  simp [hm2]

/-- Members of the de-duplicated rows come from the original rows. -/
theorem mem_dedupRowsAux {r : Phase5.AnchorRow} :
    ∀ (seen : List (String × String × String × String))
      (rows : List Phase5.AnchorRow),
      r ∈ Phase5.dedupRowsAux seen rows → r ∈ rows
  | _, [], h => absurd h (List.not_mem_nil r)
  | seen, r2 :: rest, h => by
    unfold Phase5.dedupRowsAux at h
    split at h
    · exact List.mem_cons_of_mem r2 (mem_dedupRowsAux seen rest h)
    · rcases List.mem_cons.mp h with rfl | hmem
      · exact List.mem_cons_self _ _
      · exact List.mem_cons_of_mem r2 (mem_dedupRowsAux _ rest hmem)

/-- Elimination for a successful `processLink`: the emitted row keeps
the anchor unchanged and passed the no-op filter. -/
theorem processLink_eq_some {link : Phase3.Link} {r : Phase5.AnchorRow}
    (h : Phase5.processLink link = some r) :
    r.suggested_anchor = r.current_anchor ∧
    Phase5.normalize_url_no_query r.suggested_destination
      ≠ Phase5.normalize_url_no_query r.destination_page := by
  simp only [Phase5.processLink] at h
  split at h
  · exact absurd h (by simp)
  split at h
  · exact absurd h (by simp)
  split at h
  · exact absurd h (by simp)
  split at h
  · exact absurd h (by simp)
  split at h
  · exact absurd h (by simp)
  next matched_rule _ =>
    split at h
    · exact absurd h (by simp)
    next hnoop =>
      cases h
      exact ⟨rfl, fun he => hnoop he.symm⟩

end ILA

/-! ### Claims C1 and C2 -/

/-- Claim C1: gap classification is a strict priority cascade with first
match winning — Orphan (critical), then tier A/B with zero receiving
links (High: Under-Linked), then tier A/B with generic anchors
(Medium: Poor Anchors), then Healthy; and a tier-C page with zero
incoming links is never classified Under-Linked.  The last conjunct ties
the cascade to the Audit Engine: whenever the link list is non-empty,
every audited row's `gap_status` is exactly the cascade applied to its
own audit fields. -/
theorem claim_C1_gap_status_cascade :
    (∀ (orph : Bool) (tier : String) (recv : Nat) (gen : Bool),
        (orph = true →
          ILA.Phase3.gap_status orph tier recv gen = "CRITICAL: Orphan Page") ∧
        (orph = false → (tier = "A" ∨ tier = "B") → recv = 0 →
          ILA.Phase3.gap_status orph tier recv gen = "High: Under-Linked") ∧
        (orph = false → (tier = "A" ∨ tier = "B") → recv ≠ 0 → gen = true →
          ILA.Phase3.gap_status orph tier recv gen = "Medium: Poor Anchors") ∧
        (orph = false → ¬ (tier = "A" ∨ tier = "B") →
          ILA.Phase3.gap_status orph tier recv gen = "Healthy") ∧
        (orph = false → recv ≠ 0 → gen = false →
          ILA.Phase3.gap_status orph tier recv gen = "Healthy")) ∧
    (∀ (orph gen : Bool),
        ILA.Phase3.gap_status orph "C" 0 gen ≠ "High: Under-Linked") ∧
    (∀ (pages : List ILA.Phase3.Page) (crawled : List String)
        (links : List ILA.Phase3.Link),
        links ≠ [] →
        ∀ a ∈ ILA.Phase3.audit_internal_links pages crawled links,
          a.gap_status =
            ILA.Phase3.gap_status a.is_orphan a.priority_tier
              a.receiving_links a.has_generic_anchors) := by
  refine ⟨?_, ?_, ?_⟩
  · intro orph tier recv gen
    refine ⟨?_, ?_, ?_, ?_, ?_⟩
    · intro h; simp [ILA.Phase3.gap_status, h]
    · intro h ht hr; simp [ILA.Phase3.gap_status, h, ht, hr]
    · intro h ht hr hg; simp [ILA.Phase3.gap_status, h, ht, hr, hg]
    · intro h ht; simp [ILA.Phase3.gap_status, h, ht]
    · intro h hr hg; simp [ILA.Phase3.gap_status, h, hr, hg]
  · intro orph gen
    cases orph <;> cases gen <;> decide
  · intro pages crawled links hne a ha
    unfold ILA.Phase3.audit_internal_links at ha
    rw [if_neg hne] at ha
    obtain ⟨p, _, rfl⟩ := List.mem_map.mp ha
    rfl

/-- Closed witness for C1: the cascade evaluated on concrete rows — an
orphan tier-A row is critical, a linked tier-B row with zero incoming
links is under-linked, and an audited concrete orphan page carries the
cascade status. -/
theorem claim_C1_witness :
    ILA.Phase3.gap_status true "A" 3 false = "CRITICAL: Orphan Page" ∧
    ILA.Phase3.gap_status false "B" 0 true = "High: Under-Linked" ∧
    ILA.Phase3.gap_status false "C" 0 false ≠ "High: Under-Linked" := by
  refine ⟨?_, ?_, ?_⟩
  · exact (claim_C1_gap_status_cascade.1 true "A" 3 false).1 rfl
  · exact (claim_C1_gap_status_cascade.1 false "B" 0 true).2.1 rfl (Or.inr rfl) rfl
  · exact claim_C1_gap_status_cascade.2.1 false false

/-- Counterexample to claim C2 as stated: with an EMPTY link edge set, a
tier-A page absent from `crawled_urls` is flagged `is_orphan = true` but
its `gap_status` is the sentinel "No internal links found", not the
Orphan classification — the early-return branch of
`audit_internal_links` never runs the cascade. -/
theorem claim_C2_counterexample :
    (ILA.Phase3.audit_internal_links
        [{ url := "https://raidboxes.io/solutions/a", priority_tier := "A",
           priority_score := 0 }] [] []).map
        (fun a => (a.priority_tier, a.is_orphan, a.gap_status))
      = [("A", true, "No internal links found")] ∧
    ("No internal links found" : String) ≠ "CRITICAL: Orphan Page" := by
  exact ⟨rfl, by decide⟩

/-- Claim C2, amended: a tier-A page whose url is not in `crawled_urls`
always has `is_orphan = true`, and its `gap_status` is the Orphan
classification whenever the link edge set is NON-empty, regardless of
receiving links or anchors; with an empty edge set the page instead gets
the sentinel status "No internal links found". -/
theorem claim_C2_orphan_status (pages : List ILA.Phase3.Page)
    (crawled : List String) (links : List ILA.Phase3.Link)
    (a : ILA.Phase3.AuditedPage)
    (ha : a ∈ ILA.Phase3.audit_internal_links pages crawled links)
    (hcrawl : crawled.contains a.url = false)
    (htier : a.priority_tier = "A") :
    a.is_orphan = true ∧
    (links ≠ [] → a.gap_status = "CRITICAL: Orphan Page") ∧
    (links = [] → a.gap_status = "No internal links found") := by
  unfold ILA.Phase3.audit_internal_links at ha
  by_cases hl : links = []
  · rw [if_pos hl] at ha
    obtain ⟨p, hp, rfl⟩ := List.mem_map.mp ha
    have hc : crawled.contains p.url = false := hcrawl
    refine ⟨?_, fun h => absurd hl h, fun _ => rfl⟩
    show (!(crawled.contains p.url)) = true
    rw [hc]
    rfl
  · rw [if_neg hl] at ha
    obtain ⟨p, hp, rfl⟩ := List.mem_map.mp ha
    have hc : crawled.contains p.url = false := hcrawl
    have horph : (ILA.Phase3.auditOne pages crawled links p).is_orphan
        = !crawled.contains p.url := rfl
    have hgap : (ILA.Phase3.auditOne pages crawled links p).gap_status
        = ILA.Phase3.gap_status (!crawled.contains p.url) p.priority_tier
            (links.filter (fun l => l.dest = p.url)).length
            (links.any (fun l => l.dest = p.url && ILA.Phase3.is_generic_anchor l.anchor)) := rfl
    refine ⟨?_, fun _ => ?_, fun h => absurd h hl⟩
    · rw [horph, hc]
      rfl
    · rw [hgap, hc]
      simp [ILA.Phase3.gap_status]

/-- Closed witness for the amended C2: a concrete uncrawled tier-A page
with a non-empty link list is audited to the Orphan classification. -/
theorem claim_C2_witness :
    ILA.Phase3.AuditedPage.is_orphan
        { url := "https://raidboxes.io/solutions/a", priority_tier := "A",
          priority_score := 0, is_orphan := true, receiving_links := 1,
          link_equity_score := 0, has_generic_anchors := false,
          gap_status := "CRITICAL: Orphan Page" } = true ∧
    (([{ source := "https://raidboxes.io/blog/p", dest := "https://raidboxes.io/solutions/a",
         anchor := "x" }] : List ILA.Phase3.Link) ≠ [] →
      ILA.Phase3.AuditedPage.gap_status
        { url := "https://raidboxes.io/solutions/a", priority_tier := "A",
          priority_score := 0, is_orphan := true, receiving_links := 1,
          link_equity_score := 0, has_generic_anchors := false,
          gap_status := "CRITICAL: Orphan Page" } = "CRITICAL: Orphan Page") := by
  have h := claim_C2_orphan_status
    [{ url := "https://raidboxes.io/solutions/a", priority_tier := "A", priority_score := 0 }]
    []
    [{ source := "https://raidboxes.io/blog/p", dest := "https://raidboxes.io/solutions/a",
       anchor := "x" }]
    { url := "https://raidboxes.io/solutions/a", priority_tier := "A",
      priority_score := 0, is_orphan := true, receiving_links := 1,
      link_equity_score := 0, has_generic_anchors := false,
      gap_status := "CRITICAL: Orphan Page" }
    (by decide) (by decide) (by decide)
  exact ⟨h.1, h.2.1⟩

/-! ### Claims C3, C4, C6, C8 and C9 -/

/-- Claim C3: no opportunity emitted by the Opportunity Matcher has
`source_url` equal to `target_url`, and no emitted opportunity's
(source, target) pair is a member of the existing-link set. -/
theorem claim_C3_no_self_no_existing {V : Type} (encode : String → V)
    (cos : V → V → ℚ) (blog_df : List ILA.Phase4.BlogPost)
    (audited_df : List ILA.Phase4.AuditedRow)
    (existing_links : List (String × String)) (o : ILA.Phase4.Opportunity)
    (ho : o ∈ ILA.Phase4.find_internal_link_opportunities encode cos blog_df
        audited_df existing_links) :
    o.source_url ≠ o.target_url ∧ (o.source_url, o.target_url) ∉ existing_links := by
  obtain ⟨ctx, blog, _, _, hpb⟩ := ILA.mem_find_elim ho
  obtain ⟨_, ht, _, hne, hnin, _⟩ := ILA.processBlog_eq_some hpb
  constructor
  · rw [ht]
    exact hne
  · exact hnin

/-- Closed witness for C3 on the concrete matcher run. -/
theorem claim_C3_witness :
    ILA.Ex.o0.source_url ≠ ILA.Ex.o0.target_url ∧
    (ILA.Ex.o0.source_url, ILA.Ex.o0.target_url) ∉ ILA.Ex.exLinks :=
  claim_C3_no_self_no_existing (fun s => s) ILA.Ex.exCos [ILA.Ex.bPost]
    [ILA.Ex.tRow] ILA.Ex.exLinks ILA.Ex.o0 (by decide)

/-- Claim C4: language-bucket detection is a total 3-valued partition
(every URL maps to "de", "en" or "none"), and every opportunity emitted
by the matcher has source and target in the same bucket. -/
theorem claim_C4_language_bucket_partition :
    (∀ url : String,
        ILA.Phase4.detect_language_from_url url = "de" ∨
        ILA.Phase4.detect_language_from_url url = "en" ∨
        ILA.Phase4.detect_language_from_url url = "none") ∧
    (∀ (V : Type) (encode : String → V) (cos : V → V → ℚ)
        (blog_df : List ILA.Phase4.BlogPost)
        (audited_df : List ILA.Phase4.AuditedRow)
        (existing_links : List (String × String)) (o : ILA.Phase4.Opportunity),
        o ∈ ILA.Phase4.find_internal_link_opportunities encode cos blog_df
            audited_df existing_links →
        ILA.Phase4.detect_language_from_url o.source_url
          = ILA.Phase4.detect_language_from_url o.target_url) := by
  constructor
  · intro url
    simp only [ILA.Phase4.detect_language_from_url]
    split
    · right; right; rfl
    split
    · left; rfl
    split
    · right; left; rfl
    · right; right; rfl
  · intro V encode cos blog_df audited_df existing_links o ho
    obtain ⟨ctx, blog, hlang, _, hpb⟩ := ILA.mem_find_elim ho
    obtain ⟨_, ht, _, _, _, hdet⟩ := ILA.processBlog_eq_some hpb
    rw [ht, hdet, hlang]

/-- Closed witness for C4 on the concrete matcher run. -/
theorem claim_C4_witness :
    ILA.Phase4.detect_language_from_url "https://x.io/de/blog/p" = "de" ∧
    ILA.Phase4.detect_language_from_url ILA.Ex.o0.source_url
      = ILA.Phase4.detect_language_from_url ILA.Ex.o0.target_url := by
  constructor
  · rcases claim_C4_language_bucket_partition.1 "https://x.io/de/blog/p" with h | h | h
    · exact h
    · exact absurd h (by decide)
    · exact absurd h (by decide)
  · exact claim_C4_language_bucket_partition.2 String (fun s => s) ILA.Ex.exCos
      [ILA.Ex.bPost] [ILA.Ex.tRow] ILA.Ex.exLinks ILA.Ex.o0 (by decide)

set_option maxHeartbeats 4000000 in
/-- Claim C6: for every (source, target) pair, an emitted opportunity's
confidence is the maximum qualifying sentence similarity (sentence
similarity at or above the 0.60 floor with at least one topic token)
rounded to 3 decimals; and when no sentence qualifies, no opportunity is
emitted for that pair.  `processBlog` is exactly the per-pair stage of
`find_internal_link_opportunities`. -/
theorem claim_C6_confidence_max_qualifying {V : Type} (encode : String → V)
    (cos : V → V → ℚ) (existing_links : List (String × String))
    (ctx : ILA.Phase4.TargetCtx V) (blog : ILA.Phase4.BlogPost) :
    (∀ o : ILA.Phase4.Opportunity,
        ILA.Phase4.processBlog encode cos existing_links ctx blog = some o →
        o.confidence = ILA.Phase4.round3
            ((ILA.Phase4.qualifyingSims encode cos ctx
                (ILA.Phase4.split_into_sentences blog.content)).foldl max 0) ∧
        ((ILA.Phase4.qualifyingSims encode cos ctx
              (ILA.Phase4.split_into_sentences blog.content)).foldl max 0)
          ∈ ILA.Phase4.qualifyingSims encode cos ctx
              (ILA.Phase4.split_into_sentences blog.content) ∧
        (∀ x ∈ ILA.Phase4.qualifyingSims encode cos ctx
            (ILA.Phase4.split_into_sentences blog.content),
          x ≤ (ILA.Phase4.qualifyingSims encode cos ctx
              (ILA.Phase4.split_into_sentences blog.content)).foldl max 0)) ∧
    (ILA.Phase4.qualifyingSims encode cos ctx
        (ILA.Phase4.split_into_sentences blog.content) = [] →
      ILA.Phase4.processBlog encode cos existing_links ctx blog = none) := by
  have hfold : (ILA.Phase4.split_into_sentences blog.content).foldl
      (fun best s => if ILA.Phase4.sentenceQualifies encode cos ctx s then
          max best (cos (encode s) ctx.target_vector) else best) 0
      = (ILA.Phase4.qualifyingSims encode cos ctx
          (ILA.Phase4.split_into_sentences blog.content)).foldl max 0 := by
    unfold ILA.Phase4.qualifyingSims
    exact ILA.foldl_ite_max_eq _ _ _ _
  constructor
  · intro o h
    simp only [ILA.Phase4.processBlog] at h
    split at h
    · exact absurd h (by simp)
    split at h
    · exact absurd h (by simp)
    split at h
    · exact absurd h (by simp)
    split at h
    · exact absurd h (by simp)
    split at h
    · exact absurd h (by simp)
    split at h
    · exact absurd h (by simp)
    split at h
    · exact absurd h (by simp)
    split at h
    · exact absurd h (by simp)
    split at h
    · exact absurd h (by simp)
    next h9 =>
      cases h
      refine ⟨congrArg ILA.Phase4.round3 hfold, ?_,
        fun x hx => ILA.mem_le_foldl_max _ 0 x hx⟩
      rcases ILA.foldl_max_eq_or_mem (ILA.Phase4.qualifyingSims encode cos ctx
          (ILA.Phase4.split_into_sentences blog.content)) 0 with h0 | hm
      · exact absurd (hfold.trans h0) h9
      · exact hm
  · intro hq
    simp only [ILA.Phase4.processBlog]
    split
    · rfl
    split
    · rfl
    split
    · rfl
    split
    · rfl
    split
    · rfl
    split
    · rfl
    split
    · rfl
    split
    · rfl
    split
    · rfl
    next h9 =>
      refine absurd ?_ h9
      rw [hfold, hq]
      rfl

/-- Closed witness for C6 on the concrete matcher run: the emitted
confidence is the rounded maximum qualifying similarity. -/
theorem claim_C6_witness :
    ILA.Ex.o0.confidence = ILA.Phase4.round3
        ((ILA.Phase4.qualifyingSims (fun s => s) ILA.Ex.exCos ILA.Ex.ctx0
            (ILA.Phase4.split_into_sentences ILA.Ex.bPost.content)).foldl max 0) :=
  ((claim_C6_confidence_max_qualifying (fun s => s) ILA.Ex.exCos ILA.Ex.exLinks
      ILA.Ex.ctx0 ILA.Ex.bPost).1 ILA.Ex.o0 (by decide)).1

/-- Counterexample to claim C8 as stated: `normalize_url` uses Python
`rstrip("/")`, which removes EVERY trailing slash, so an input ending in
two slashes keeps none (the claim says it would keep one). -/
theorem claim_C8_counterexample :
    ILA.Phase4.normalize_url "https://x.io/blog//" = "https://x.io/blog" ∧
    ILA.Phase4.normalize_url "https://x.io/blog//" ≠ "https://x.io/blog/" := by
  exact ⟨rfl, by decide⟩

/-- Claim C8, amended: `normalize_url` trims surrounding whitespace and
strips ALL trailing slashes — the result is the whitespace-trimmed input
minus its entire trailing run of slashes, and never ends in a slash. -/
theorem claim_C8_normalize_url (u : String) :
    (ILA.Phase4.normalize_url u).data = ILA.rstripSlash (ILA.trimWs u.data) ∧
    (∃ k, (ILA.Phase4.normalize_url u).data ++ List.replicate k '/'
        = ILA.trimWs u.data) ∧
    (ILA.Phase4.normalize_url u).data.getLast? ≠ some '/' := by
  refine ⟨rfl, ?_, ?_⟩
  · exact ILA.rstripSlash_append_replicate (ILA.trimWs u.data)
  · exact ILA.rstripSlash_getLast_ne (ILA.trimWs u.data)

/-- Claim C9: the matcher's homepage exclusion is exactly the "path
depth ≤ 2 after trimming trailing slashes" test (slash count of the
rstripped URL), and every emitted opportunity's target URL has more than
2 slashes after trimming. -/
theorem claim_C9_homepage_exclusion :
    (∀ u : String, ILA.Phase4.is_homepage u
        = decide (ILA.countChar '/' (ILA.rstripSlash u.data) ≤ 2)) ∧
    (∀ (V : Type) (encode : String → V) (cos : V → V → ℚ)
        (blog_df : List ILA.Phase4.BlogPost)
        (audited_df : List ILA.Phase4.AuditedRow)
        (existing_links : List (String × String)) (o : ILA.Phase4.Opportunity),
        o ∈ ILA.Phase4.find_internal_link_opportunities encode cos blog_df
            audited_df existing_links →
        ILA.Phase4.is_homepage o.target_url = false ∧
        2 < ILA.countChar '/' (ILA.rstripSlash o.target_url.data)) := by
  constructor
  · intro u
    rfl
  · intro V encode cos blog_df audited_df existing_links o ho
    obtain ⟨ctx, blog, _, hhome, hpb⟩ := ILA.mem_find_elim ho
    obtain ⟨_, ht, _, _, _, _⟩ := ILA.processBlog_eq_some hpb
    rw [ht]
    refine ⟨hhome, ?_⟩
    have h2 : ¬ (ILA.countChar '/' (ILA.rstripSlash ctx.target_url.data) ≤ 2) := by
      simpa [ILA.Phase4.is_homepage] using hhome
    omega

/-- Closed witness for C9 on the concrete matcher run. -/
theorem claim_C9_witness :
    ILA.Phase4.is_homepage ILA.Ex.o0.target_url = false ∧
    2 < ILA.countChar '/' (ILA.rstripSlash ILA.Ex.o0.target_url.data) :=
  claim_C9_homepage_exclusion.2 String (fun s => s) ILA.Ex.exCos [ILA.Ex.bPost]
    [ILA.Ex.tRow] ILA.Ex.exLinks ILA.Ex.o0 (by decide)

/-! ### Claims C5, C7 and C10 -/

/-- Claim C5: commercial rule resolution is deterministic and
order-dependent — `find?` over the fixed rule list returns the first
rule whose regex matches the normalized anchor and whose strong-match
check confirms, with every earlier rule failing the combined test; and
for any link with anchor "woocommerce hosting" that is eligible for
rewriting (non-empty, non-date, non-headline anchor and a blog
destination), the engine emits the WooCommerce hosting page (in the
source's language bucket) as `suggested_destination` — which always
differs from what the generic managed-wordpress-hosting rule would
suggest. -/
theorem claim_C5_first_match_woocommerce :
    (∀ (anchor_lc anchor : String) (r : ILA.Phase5.CommercialRule),
        ILA.Phase5.COMMERCIAL_ANCHOR_RULES.find?
            (ILA.Phase5.ruleMatches anchor_lc anchor) = some r →
        ILA.Phase5.ruleMatches anchor_lc anchor r = true ∧
        ∃ l1 l2, ILA.Phase5.COMMERCIAL_ANCHOR_RULES = l1 ++ r :: l2 ∧
          ∀ r2 ∈ l1, ILA.Phase5.ruleMatches anchor_lc anchor r2 = false) ∧
    (∀ src dst : String,
        ILA.Phase5.is_blog_url (ILA.pyStrip dst) = true →
        ILA.Phase5.processLink
            { source := src, dest := dst, anchor := "woocommerce hosting" }
          = some { page_to_edit := ILA.pyStrip src,
                   destination_page := ILA.pyStrip dst,
                   current_anchor := "woocommerce hosting",
                   suggested_anchor := "woocommerce hosting",
                   suggested_destination :=
                     if ILA.Phase5.source_is_en (ILA.pyStrip src) = true
                     then "https://raidboxes.io/en/solutions/woocommerce-hosting"
                     else "https://raidboxes.io/solutions/woocommerce-hosting",
                   rule_triggered := "commercial_mapping: woocommerce hosting" } ∧
        ILA.Phase5.align_destination_language
            "https://raidboxes.io/solutions/woocommerce-hosting/" (ILA.pyStrip src)
          ≠ ILA.Phase5.align_destination_language
            "https://raidboxes.io/solutions/managed-wordpress-hosting/"
            (ILA.pyStrip src)) := by
  constructor
  · intro anchor_lc anchor r hfind
    obtain ⟨hr, l1, l2, hsplit, hall⟩ := List.find?_eq_some.mp hfind
    refine ⟨hr, l1, l2, hsplit, fun r2 h2 => ?_⟩
    simpa using hall r2 h2
  · intro src dst hblog
    have halignW : ILA.Phase5.align_destination_language
        "https://raidboxes.io/solutions/woocommerce-hosting/" (ILA.pyStrip src)
        = (if ILA.Phase5.source_is_en (ILA.pyStrip src) = true
           then "https://raidboxes.io/en/solutions/woocommerce-hosting"
           else "https://raidboxes.io/solutions/woocommerce-hosting") := by
      by_cases hsen : ILA.Phase5.source_is_en (ILA.pyStrip src) = true
      · rw [if_pos hsen]
        simp only [ILA.Phase5.align_destination_language, hsen]
        decide
      · rw [if_neg hsen]
        rw [Bool.not_eq_true] at hsen
        simp only [ILA.Phase5.align_destination_language, hsen]
        decide
    have halignM : ILA.Phase5.align_destination_language
        "https://raidboxes.io/solutions/managed-wordpress-hosting/" (ILA.pyStrip src)
        = (if ILA.Phase5.source_is_en (ILA.pyStrip src) = true
           then "https://raidboxes.io/en/solutions/managed-wordpress-hosting"
           else "https://raidboxes.io/solutions/managed-wordpress-hosting") := by
      by_cases hsen : ILA.Phase5.source_is_en (ILA.pyStrip src) = true
      · rw [if_pos hsen]
        simp only [ILA.Phase5.align_destination_language, hsen]
        decide
      · rw [if_neg hsen]
        rw [Bool.not_eq_true] at hsen
        simp only [ILA.Phase5.align_destination_language, hsen]
        decide
    have hne : ILA.Phase5.normalize_url_no_query (ILA.pyStrip dst)
        ≠ ILA.Phase5.normalize_url_no_query
          (if ILA.Phase5.source_is_en (ILA.pyStrip src) = true
           then "https://raidboxes.io/en/solutions/woocommerce-hosting"
           else "https://raidboxes.io/solutions/woocommerce-hosting") := by
      obtain ⟨x, y, hxy⟩ := ILA.is_blog_url_hasSub (ILA.pyStrip dst) hblog
      intro heq
      rw [heq] at hxy
      have hsubt : ILA.hasSub "/blog".data
          ((ILA.Phase5.normalize_url_no_query
            (if ILA.Phase5.source_is_en (ILA.pyStrip src) = true
             then "https://raidboxes.io/en/solutions/woocommerce-hosting"
             else "https://raidboxes.io/solutions/woocommerce-hosting")).data.map
              ILA.lowerChar) = true :=
        (ILA.hasSub_iff _ _).mpr ⟨x, y, hxy⟩
      by_cases hsen : ILA.Phase5.source_is_en (ILA.pyStrip src) = true
      · rw [if_pos hsen] at hsubt
        exact absurd hsubt (by decide)
      · rw [if_neg hsen] at hsubt
        exact absurd hsubt (by decide)
    have hpl : ILA.Phase5.processLink
        { source := src, dest := dst, anchor := "woocommerce hosting" }
        = (if ILA.Phase5.normalize_url_no_query (ILA.pyStrip dst)
              = ILA.Phase5.normalize_url_no_query
                  (ILA.Phase5.align_destination_language
                    "https://raidboxes.io/solutions/woocommerce-hosting/"
                    (ILA.pyStrip src))
           then none
           else some { page_to_edit := ILA.pyStrip src,
                       destination_page := ILA.pyStrip dst,
                       current_anchor := "woocommerce hosting",
                       suggested_anchor := "woocommerce hosting",
                       suggested_destination :=
                         ILA.Phase5.align_destination_language
                           "https://raidboxes.io/solutions/woocommerce-hosting/"
                           (ILA.pyStrip src),
                       rule_triggered := "commercial_mapping: woocommerce hosting" }) := by
      simp only [ILA.Phase5.processLink]
      rw [if_neg (show ¬ (ILA.Phase5.is_blog_url (ILA.pyStrip dst) = false) from by
        simp [hblog])]
      rfl
    constructor
    · rw [hpl, halignW, if_neg hne]
    · rw [halignW, halignM]
      by_cases hsen : ILA.Phase5.source_is_en (ILA.pyStrip src) = true
      · rw [if_pos hsen, if_pos hsen]
        decide
      · rw [if_neg hsen, if_neg hsen]
        decide

/-- Closed witness for C5: a concrete eligible link with anchor
"woocommerce hosting" is rewritten to the WooCommerce hosting page. -/
theorem claim_C5_witness :
    ILA.Phase5.processLink
        { source := "https://raidboxes.io/de-page",
          dest := "https://raidboxes.io/blog/target-post",
          anchor := "woocommerce hosting" }
      = some { page_to_edit := ILA.pyStrip "https://raidboxes.io/de-page",
               destination_page := ILA.pyStrip "https://raidboxes.io/blog/target-post",
               current_anchor := "woocommerce hosting",
               suggested_anchor := "woocommerce hosting",
               suggested_destination :=
                 if ILA.Phase5.source_is_en
                     (ILA.pyStrip "https://raidboxes.io/de-page") = true
                 then "https://raidboxes.io/en/solutions/woocommerce-hosting"
                 else "https://raidboxes.io/solutions/woocommerce-hosting",
               rule_triggered := "commercial_mapping: woocommerce hosting" } ∧
    ILA.Phase5.align_destination_language
        "https://raidboxes.io/solutions/woocommerce-hosting/"
        (ILA.pyStrip "https://raidboxes.io/de-page")
      ≠ ILA.Phase5.align_destination_language
        "https://raidboxes.io/solutions/managed-wordpress-hosting/"
        (ILA.pyStrip "https://raidboxes.io/de-page") :=
  claim_C5_first_match_woocommerce.2 "https://raidboxes.io/de-page"
    "https://raidboxes.io/blog/target-post" (by decide)

/-- Claim C7: every accepted anchor-rewrite suggestion has a suggested
destination that differs from the current destination after
query/fragment stripping and trailing-slash normalization — no-op
rewrites are never emitted. -/
theorem claim_C7_no_noop_rewrites (raw_links_list : List ILA.Phase3.Link)
    (audited_df : List ILA.Phase3.AuditedPage) (r : ILA.Phase5.AnchorRow)
    (hr : r ∈ ILA.Phase5.build_anchor_optimization_report raw_links_list audited_df) :
    ILA.Phase5.normalize_url_no_query r.suggested_destination
      ≠ ILA.Phase5.normalize_url_no_query r.destination_page := by
  unfold ILA.Phase5.build_anchor_optimization_report at hr
  obtain ⟨link, _, hpl⟩ := List.mem_filterMap.mp (ILA.mem_dedupRowsAux _ _ hr)
  exact (ILA.processLink_eq_some hpl).2

/-- Closed witness for C7 on a concrete report run. -/
theorem claim_C7_witness :
    ILA.Phase5.normalize_url_no_query
        (ILA.Phase5.AnchorRow.suggested_destination
          { page_to_edit := "https://raidboxes.io/de-page",
            destination_page := "https://raidboxes.io/blog/target-post",
            current_anchor := "woocommerce hosting",
            suggested_anchor := "woocommerce hosting",
            suggested_destination := "https://raidboxes.io/solutions/woocommerce-hosting",
            rule_triggered := "commercial_mapping: woocommerce hosting" })
      ≠ ILA.Phase5.normalize_url_no_query
        (ILA.Phase5.AnchorRow.destination_page
          { page_to_edit := "https://raidboxes.io/de-page",
            destination_page := "https://raidboxes.io/blog/target-post",
            current_anchor := "woocommerce hosting",
            suggested_anchor := "woocommerce hosting",
            suggested_destination := "https://raidboxes.io/solutions/woocommerce-hosting",
            rule_triggered := "commercial_mapping: woocommerce hosting" }) :=
  claim_C7_no_noop_rewrites
    [{ source := "https://raidboxes.io/de-page",
       dest := "https://raidboxes.io/blog/target-post",
       anchor := "woocommerce hosting" }]
    []
    { page_to_edit := "https://raidboxes.io/de-page",
      destination_page := "https://raidboxes.io/blog/target-post",
      current_anchor := "woocommerce hosting",
      suggested_anchor := "woocommerce hosting",
      suggested_destination := "https://raidboxes.io/solutions/woocommerce-hosting",
      rule_triggered := "commercial_mapping: woocommerce hosting" }
    (by decide)

/-- Claim C10 (implicit): every anchor-rewrite suggestion keeps the
anchor text unchanged — `suggested_anchor` equals `current_anchor` in
every output row; the engine only reroutes the destination. -/
theorem claim_C10_anchor_unchanged (raw_links_list : List ILA.Phase3.Link)
    (audited_df : List ILA.Phase3.AuditedPage) (r : ILA.Phase5.AnchorRow)
    (hr : r ∈ ILA.Phase5.build_anchor_optimization_report raw_links_list audited_df) :
    r.suggested_anchor = r.current_anchor := by
  unfold ILA.Phase5.build_anchor_optimization_report at hr
  obtain ⟨link, _, hpl⟩ := List.mem_filterMap.mp (ILA.mem_dedupRowsAux _ _ hr)
  exact (ILA.processLink_eq_some hpl).1

/-- Closed witness for C10 on a concrete report run. -/
theorem claim_C10_witness :
    ILA.Phase5.AnchorRow.suggested_anchor
        { page_to_edit := "https://raidboxes.io/de-page",
          destination_page := "https://raidboxes.io/blog/target-post",
          current_anchor := "woocommerce hosting",
          suggested_anchor := "woocommerce hosting",
          suggested_destination := "https://raidboxes.io/solutions/woocommerce-hosting",
          rule_triggered := "commercial_mapping: woocommerce hosting" }
      = ILA.Phase5.AnchorRow.current_anchor
        { page_to_edit := "https://raidboxes.io/de-page",
          destination_page := "https://raidboxes.io/blog/target-post",
          current_anchor := "woocommerce hosting",
          suggested_anchor := "woocommerce hosting",
          suggested_destination := "https://raidboxes.io/solutions/woocommerce-hosting",
          rule_triggered := "commercial_mapping: woocommerce hosting" } :=
  claim_C10_anchor_unchanged
    [{ source := "https://raidboxes.io/de-page",
       dest := "https://raidboxes.io/blog/target-post",
       anchor := "woocommerce hosting" }]
    []
    { page_to_edit := "https://raidboxes.io/de-page",
      destination_page := "https://raidboxes.io/blog/target-post",
      current_anchor := "woocommerce hosting",
      suggested_anchor := "woocommerce hosting",
      suggested_destination := "https://raidboxes.io/solutions/woocommerce-hosting",
      rule_triggered := "commercial_mapping: woocommerce hosting" }
    (by decide)
